import Mathlib

/-!
Verification of the structured error and validation framework of
ds-go-commonmodels.

The Go sources are embedded shallowly:

* package `enum/errors` (code.go): machine codes, the English and Norwegian
  message catalogs, `HumanMessage` / `HumanMessageLocale`, and the bilingual
  helper `CustomHumanMessageLocale`;
* package `validation_error` (validation_error.go, envelope.go):
  `ValidationError`, `ErrorEnvelope`, the validation sentinel, and the
  `errors.Is` / `errors.As` protocols;
* package `http_error` (http_error.go): `HTTPError`, its constructors and
  `WithRetry` / `WithCause` / `Response`;
* package `types` (jsonb.go): the generic `JSONB[T]` wrapper with
  `Validate`, `Scan` and `UnmarshalJSON`.

Go maps become association lists, Go slices become `Option (List _)`
(`none` models a nil slice, `some` a non-nil one), Go `int` becomes `Int`,
and fallible operations return `Option` / `Except`.
-/

set_option maxRecDepth 4000

namespace DsCommonModels

namespace Errors

/-- Machine-readable error codes (const block of code.go). -/
def Internal : String := "internal_error"

def Unauthorized : String := "unauthorized"

def Forbidden : String := "forbidden"

def NotFound : String := "not_found"

def Conflict : String := "conflict"

def BadRequest : String := "bad_request"

def ValidationFailed : String := "validation_failed"

def TooManyRequests : String := "too_many_requests"

def Required : String := "required"

def InvalidEmailFormat : String := "invalid_email_format"

def InvalidJSONFormat : String := "invalid_json_format"

def InvalidStatus : String := "invalid_status"

def Invalid : String := "invalid"

def InvalidDataType : String := "invalid_data_type"

def BadGateway : String := "bad_gateway"

def OK : String := "ok"

def Created : String := "created"

def Accepted : String := "accepted"

def NonAuthoritativeInfo : String := "non_authoritative_info"

def NoContent : String := "no_content"

def ResetContent : String := "reset_content"

def PartialContent : String := "partial_content"

def MultiStatus : String := "multi_status"

def AlreadyReported : String := "already_reported"

def IMUsed : String := "im_used"

def MultipleChoices : String := "multiple_choices"

def MovedPermanently : String := "moved_permanently"

def Found : String := "found"

def SeeOther : String := "see_other"

def NotModified : String := "not_modified"

def UseProxy : String := "use_proxy"

def Unused : String := "unused"

def TemporaryRedirect : String := "temporary_redirect"

def PermanentRedirect : String := "permanent_redirect"

def PaymentRequired : String := "payment_required"

def MethodNotAllowed : String := "method_not_allowed"

def NotAcceptable : String := "not_acceptable"

def ProxyAuthRequired : String := "proxy_auth_required"

def RequestTimeout : String := "request_timeout"

def Gone : String := "gone"

def LengthRequired : String := "length_required"

def PreconditionFailed : String := "precondition_failed"

def ContentTooLarge : String := "content_too_large"

def URITooLong : String := "uri_too_long"

def UnsupportedMediaType : String := "unsupported_media_type"

def RangeNotSatisfiable : String := "range_not_satisfiable"

def ExpectationFailed : String := "expectation_failed"

def ImATeapot : String := "im_a_teapot"

def MisdirectedRequest : String := "misdirected_request"

def UnprocessableContent : String := "unprocessable_content"

def Locked : String := "locked"

def FailedDependency : String := "failed_dependency"

def TooEarly : String := "too_early"

def UpgradeRequired : String := "upgrade_required"

def PreconditionRequired : String := "precondition_required"

def RequestHeaderFieldsTooLarge : String := "request_header_fields_too_large"

def UnavailableForLegalReasons : String := "unavailable_for_legal_reasons"

def NotImplemented : String := "not_implemented"

def ServiceUnavailable : String := "service_unavailable"

def GatewayTimeout : String := "gateway_timeout"

def HTTPVersionNotSupported : String := "http_version_not_supported"

def VariantAlsoNegotiates : String := "variant_also_negotiates"

def InsufficientStorage : String := "insufficient_storage"

def LoopDetected : String := "loop_detected"

def NotExtended : String := "not_extended"

def NetworkAuthenticationRequired : String := "network_auth_required"

def RequirePositiveInt : String := "require_positive_int"

/-- Map `messagesEN` of code.go: the English catalog, a Go
`map[string]string` embedded as an association list. -/
def messagesEN : List (String × String) := [
  (Internal, "Something went wrong on our side. Please try again."),
  (Unauthorized, "You need to sign in to continue."),
  (Forbidden, "You don\x27t have permission to perform this action."),
  (NotFound, "The requested resource was not found."),
  (Conflict, "The resource is in a conflicting state."),
  (BadRequest, "Your request could not be understood."),
  (ValidationFailed, "One or more fields failed validation."),
  (TooManyRequests, "Too many requests. Please slow down."),
  (Required, "%s is required."),
  (InvalidEmailFormat, "%s must be a valid email address."),
  (InvalidJSONFormat, "Request body must be valid JSON."),
  (InvalidStatus, "The provided status %s is invalid. Allowed values include active, deleted, suspended, rejected, draft"),
  (Invalid, "Invalid"),
  (InvalidDataType, "The provided data type %s is invalid. Allowed values include string, int64, float64, decimal, time, datetime, bytes, uuid, map"),
  (BadGateway, "The server received an invalid response from an upstream service. Please try again later."),
  (OK, "Success."),
  (Created, "Resource created successfully."),
  (Accepted, "Request accepted for processing."),
  (NonAuthoritativeInfo, "Non-authoritative information."),
  (NoContent, "No content."),
  (ResetContent, "Reset content."),
  (PartialContent, "Partial content delivered."),
  (MultiStatus, "Multiple status responses."),
  (AlreadyReported, "Already reported."),
  (IMUsed, "IM used."),
  (MultipleChoices, "Multiple choices available."),
  (MovedPermanently, "Resource moved permanently."),
  (Found, "Resource found."),
  (SeeOther, "See other resource."),
  (NotModified, "Resource not modified."),
  (UseProxy, "Use proxy."),
  (Unused, "Unused status code."),
  (TemporaryRedirect, "Temporary redirect."),
  (PermanentRedirect, "Permanent redirect."),
  (PaymentRequired, "Payment required."),
  (MethodNotAllowed, "Method not allowed."),
  (NotAcceptable, "Not acceptable."),
  (ProxyAuthRequired, "Proxy authentication required."),
  (RequestTimeout, "Request timeout."),
  (Gone, "Resource gone."),
  (LengthRequired, "Content length required."),
  (PreconditionFailed, "Precondition failed."),
  (ContentTooLarge, "Content too large."),
  (URITooLong, "URI too long."),
  (UnsupportedMediaType, "Unsupported media type."),
  (RangeNotSatisfiable, "Range not satisfiable."),
  (ExpectationFailed, "Expectation failed."),
  (ImATeapot, "I\x27m a teapot."),
  (MisdirectedRequest, "Misdirected request."),
  (UnprocessableContent, "Unprocessable content."),
  (Locked, "Resource locked."),
  (FailedDependency, "Failed dependency."),
  (TooEarly, "Too early."),
  (UpgradeRequired, "Upgrade required."),
  (PreconditionRequired, "Precondition required."),
  (RequestHeaderFieldsTooLarge, "Request header fields too large."),
  (UnavailableForLegalReasons, "Unavailable for legal reasons."),
  (NotImplemented, "Not implemented."),
  (ServiceUnavailable, "Service unavailable."),
  (GatewayTimeout, "Gateway timeout."),
  (HTTPVersionNotSupported, "HTTP version not supported."),
  (VariantAlsoNegotiates, "Variant also negotiates."),
  (InsufficientStorage, "Insufficient storage."),
  (LoopDetected, "Loop detected."),
  (NotExtended, "Not extended."),
  (NetworkAuthenticationRequired, "Network authentication required."),
  (RequirePositiveInt, "Integer must be positive.")]

/-- Map `messagesNB` of code.go: the Norwegian catalog. -/
def messagesNB : List (String × String) := [
  (Internal, "Noe gikk galt hos oss. Prøv igjen."),
  (Unauthorized, "Du må være innlogget for å fortsette."),
  (Forbidden, "Du har ikke tilgang til denne handlingen."),
  (NotFound, "Forespurt ressurs ble ikke funnet."),
  (Conflict, "Ressursen er i konflikt."),
  (BadRequest, "Forespørselen kunne ikke forstås."),
  (ValidationFailed, "Ett eller flere felt feilet validering."),
  (TooManyRequests, "For mange forespørsler. Vent litt."),
  (Required, "%s er påkrevd."),
  (InvalidEmailFormat, "%s må være en gyldig e-postadresse."),
  (InvalidJSONFormat, "Kroppen i forespørselen må være gyldig JSON."),
  (InvalidStatus, "Oppgitt statusverdi er ugyldig. Gyldige verdier inkluderer active, deleted, suspended, rejected, draft"),
  (Invalid, "Ugyldig"),
  (InvalidDataType, "Oppgitt datatypeverdi er ugyldig. Gyldige verdier inkluderer string, int64, float64, decimal, time, datetime, bytes, uuid, map"),
  (BadGateway, "Serveren mottok et ugyldig svar fra en ekstern tjeneste. Prøv igjen senere."),
  (OK, "Vellykket."),
  (Created, "Ressurs opprettet."),
  (Accepted, "Forespørsel akseptert for behandling."),
  (NonAuthoritativeInfo, "Ikke-autoritativ informasjon."),
  (NoContent, "Ingen innhold."),
  (ResetContent, "Tilbakestill innhold."),
  (PartialContent, "Delvis innhold levert."),
  (MultiStatus, "Flere statusresponser."),
  (AlreadyReported, "Allerede rapportert."),
  (IMUsed, "IM brukt."),
  (MultipleChoices, "Flere valg tilgjengelig."),
  (MovedPermanently, "Ressursen er permanent flyttet."),
  (Found, "Ressurs funnet."),
  (SeeOther, "Se annen ressurs."),
  (NotModified, "Ressurs ikke endret."),
  (UseProxy, "Bruk proxy."),
  (Unused, "Ubrukt statuskode."),
  (TemporaryRedirect, "Midlertidig omdirigering."),
  (PermanentRedirect, "Permanent omdirigering."),
  (PaymentRequired, "Betaling kreves."),
  (MethodNotAllowed, "Metode ikke tillatt."),
  (NotAcceptable, "Ikke akseptabelt."),
  (ProxyAuthRequired, "Proxy-autentisering kreves."),
  (RequestTimeout, "Forespørselen har tidsavbrudd."),
  (Gone, "Ressursen er fjernet."),
  (LengthRequired, "Content-Length kreves."),
  (PreconditionFailed, "Forutsetning feilet."),
  (ContentTooLarge, "Innholdet er for stort."),
  (URITooLong, "URI er for lang."),
  (UnsupportedMediaType, "Medietype ikke støttet."),
  (RangeNotSatisfiable, "Område ikke tilfredsstillende."),
  (ExpectationFailed, "Forventning feilet."),
  (ImATeapot, "Jeg er en tekanne."),
  (MisdirectedRequest, "Feilrettet forespørsel."),
  (UnprocessableContent, "Kan ikke behandle innhold."),
  (Locked, "Ressursen er låst."),
  (FailedDependency, "Avhengighet feilet."),
  (TooEarly, "For tidlig."),
  (UpgradeRequired, "Oppgradering kreves."),
  (PreconditionRequired, "Forutsetning kreves."),
  (RequestHeaderFieldsTooLarge, "Forespørselens header-felt er for store."),
  (UnavailableForLegalReasons, "Utilgjengelig av juridiske årsaker."),
  (NotImplemented, "Ikke implementert."),
  (ServiceUnavailable, "Tjenesten er utilgjengelig."),
  (GatewayTimeout, "Gateway tidsavbrudd."),
  (HTTPVersionNotSupported, "HTTP-versjon ikke støttet."),
  (VariantAlsoNegotiates, "Variant forhandler også."),
  (InsufficientStorage, "Utilstrekkelig lagringsplass."),
  (LoopDetected, "Sløyfe oppdaget."),
  (NotExtended, "Ikke utvidet."),
  (NetworkAuthenticationRequired, "Nettverksautentisering kreves."),
  (RequirePositiveInt, "Heltallet må være positivt.")]

/-- Map `catalogs` of code.go: locale tag to catalog. -/
def catalogs : List (String × List (String × String)) :=
  [("en", messagesEN), ("nb", messagesNB)]

/-- Marker `fmt.Sprintf` appends when more arguments than verbs are
supplied, as in Go\x27s `%!(EXTRA string=..., ...)` output. -/
def extraMarker (args : List String) : List Char :=
  ("%!(EXTRA string=" ++ String.intercalate ", string=" args ++ ")").data

/-- Model of Go `fmt.Sprintf` restricted to the `%s` verb, the only verb
occurring in the message catalogs.  Literal characters are copied, each
`%s` consumes the next argument, a missing argument yields Go\x27s
`%!s(MISSING)` marker and surplus arguments yield the `EXTRA` marker.
Arguments are modelled as strings (the catalogs substitute field names). -/
def sprintfAux : List Char → List String → List Char
  | [], [] => []
  | [], a :: as => extraMarker (a :: as)
  | '%' :: 's' :: rest, a :: as => a.data ++ sprintfAux rest as
  | '%' :: 's' :: rest, [] => "%!s(MISSING)".data ++ sprintfAux rest []
  | c :: rest, args => c :: sprintfAux rest args

/-- String-level wrapper of the `fmt.Sprintf` model. -/
def sprintf (f : String) (args : List String) : String :=
  ⟨sprintfAux f.data args⟩

/-- A format string contains at least one literal character, i.e. one
the `sprintf` model emits verbatim (anything outside the `%s` verbs).
Every template in the catalogs satisfies this. -/
def hasLiteral : List Char → Bool
  | [] => false
  | '%' :: 's' :: rest => hasLiteral rest
  | _ :: _ => true

/-- The `cat` local of `HumanMessageLocale` in code.go: the requested
locale\x27s catalog, or English when the locale has none. -/
def selectedCatalog (locale : String) : List (String × String) :=
  (catalogs.lookup locale).getD messagesEN

/-- The `msg` local of `HumanMessageLocale` in code.go: the entry for
the code, or the English internal-error entry as safe fallback (a Go
map index that yields the zero string were the key ever absent, hence
the inner `getD ""`). -/
def selectedMsg (locale code : String) : String :=
  ((selectedCatalog locale).lookup code).getD ((messagesEN.lookup Internal).getD "")

/-- Function `HumanMessageLocale` of code.go: choose the catalog by locale
(falling back to English), choose the template by code (falling back to
the English internal-error entry), then substitute arguments only when
any are supplied. -/
def HumanMessageLocale (locale code : String) (args : List String) : String :=
  if 0 < args.length then sprintf (selectedMsg locale code) args
  else selectedMsg locale code

/-- Function `HumanMessage` of code.go. -/
def HumanMessage (code : String) (args : List String) : String :=
  HumanMessageLocale "en" code args

/-- Struct `CustomMessage` of code.go: a caller-supplied bilingual pair. -/
structure CustomMessage where
  En : String
  No : String

/-- Model of `reflect.ValueOf(c).FieldByName(name)` on `CustomMessage`:
only the two field names are valid. -/
def fieldByName (c : CustomMessage) (name : String) : Option String :=
  if name = "En" then some c.En
  else if name = "No" then some c.No
  else none

/-- Function `CustomHumanMessageLocale` of code.go: map the locale tag to a field
name (defaulting to `En`), fetch the field by reflection, and fall back
to `c.En` when the reflected value is invalid. -/
def CustomHumanMessageLocale (locale : String) (c : CustomMessage) : String :=
  let opts : List (String × String) := [("en", "En"), ("no", "No")]
  let upperLocale : String :=
    match opts.lookup locale with
    | some u => u
    | none => "En"
  match fieldByName c upperLocale with
  | some v => v
  | none => c.En

end Errors

namespace ValidationErrors

/-- Struct `ValidationError` of validation_error.go: a single field-level
diagnostic record. -/
structure ValidationError where
  Field : String
  Message : String
  Loc : String
  Code : String
deriving DecidableEq

/-- Struct `ErrorEnvelope` of envelope.go.  The Go slice `Details` is embedded
as `Option (List _)`: `none` is a nil slice, `some xs` a non-nil slice
with elements `xs`. -/
structure ErrorEnvelope where
  Details : Option (List ValidationError)
deriving DecidableEq

/-- Constructor `New` of envelope.go: the constructor allocates a non-nil empty
`Details` slice (`make([]ValidationError, 0)`). -/
def New : ErrorEnvelope := ⟨some []⟩

/-- The Go zero value `ErrorEnvelope{}`: the `Details` slice is nil. -/
def zeroEnvelope : ErrorEnvelope := ⟨none⟩

/-- Method `Append` of envelope.go: `e.Details = append(e.Details, v)`.
Go\x27s `append` on a nil slice allocates, so the result is non-nil. -/
def ErrorEnvelope.Append (e : ErrorEnvelope) (v : ValidationError) : ErrorEnvelope :=
  ⟨some ((e.Details.getD []) ++ [v])⟩

/-- Model of `encoding/json` string quoting for the characters appearing
in this development (no quote, backslash or control characters occur in
any value the claims touch). -/
def jsonQuote (s : String) : String := "\"" ++ s ++ "\""

/-- The `encoding/json` output for one `ValidationError` value, following
the struct tags `field`, `message`, `loc`, `code` in declaration
order. -/
def marshalValidationError (v : ValidationError) : String :=
  "\x7b\"field\":" ++ jsonQuote v.Field ++ ",\"message\":" ++ jsonQuote v.Message ++
    ",\"loc\":" ++ jsonQuote v.Loc ++ ",\"code\":" ++ jsonQuote v.Code ++ "\x7d"

/-- The `encoding/json` output for `ErrorEnvelope` under the tag `details`:
a nil slice marshals as `null`, a non-nil slice as a JSON array. -/
def marshalEnvelope (e : ErrorEnvelope) : String :=
  "\x7b\"details\":" ++
    (match e.Details with
     | none => "null"
     | some xs => "[" ++ String.intercalate "," (xs.map marshalValidationError) ++ "]") ++
    "\x7d"

end ValidationErrors

/-- The universe of Go error values reachable in this library: sentinel
errors created by `errors.New`, `*ErrorEnvelope`, `*HTTPError` (fields
inlined, with its non-serialised cause and status), and errors wrapped
with context (`fmt.Errorf` with `%w`). -/
inductive GoError where
  | sentinel (msg : String)
  | envelope (Details : Option (List ValidationErrors.ValidationError))
  | httpError (Code Message RequestID : String) (Recoverable : Bool)
      (RetryAfter : Int) (cause : Option GoError) (status : Int)
  | wrapped (msg : String) (inner : GoError)

namespace ValidationErrors

/-- Sentinel `ErrValidation` of envelope.go: the package-level sentinel created
once by `errors.New("validation error")`. -/
def ErrValidation : GoError := .sentinel "validation error"

/-- Model of Go `==` on error interface values as used by `errors.Is`:
every `*ErrorEnvelope`, `*HTTPError` or wrapped error is a fresh
allocation and never compares equal to another error value, while
package-level sentinels are globals compared by identity; each sentinel
message in this library is created exactly once, so identity coincides
with message equality. -/
def eqGoError : GoError → GoError → Bool
  | .sentinel s, .sentinel t => s == t
  | _, _ => false

/-- Model of `errors.Is(err, target)`: at each step compare with `==`,
consult an `Is` method when the dynamic type has one, then follow
`Unwrap`.  `(*ErrorEnvelope).Is(target)` returns `target ==
ErrValidation` and `(*ErrorEnvelope).Unwrap()` returns the sentinel
`ErrValidation`, whose own chain ends immediately, so the envelope case
unfolds to the three comparisons below.  `(*HTTPError).Unwrap()` returns
the cause. -/
def errorsIs : GoError → GoError → Bool
  | .sentinel s, t => eqGoError (.sentinel s) t
  | .envelope d, t =>
      eqGoError (.envelope d) t || eqGoError t ErrValidation ||
        eqGoError ErrValidation t
  | .httpError c m r rec ra none st, t =>
      eqGoError (.httpError c m r rec ra none st) t
  | .httpError c m r rec ra (some cause) st, t =>
      eqGoError (.httpError c m r rec ra (some cause) st) t || errorsIs cause t
  | .wrapped m inner, t => eqGoError (.wrapped m inner) t || errorsIs inner t

/-- Model of `errors.As(err, &envelope)` for target type
`*ErrorEnvelope`: walk the `Unwrap` chain and return the details of the
first envelope found. -/
def errorsAsEnvelope : GoError → Option (Option (List ValidationError))
  | .sentinel _ => none
  | .envelope d => some d
  | .httpError _ _ _ _ _ none _ => none
  | .httpError _ _ _ _ _ (some cause) _ => errorsAsEnvelope cause
  | .wrapped _ inner => errorsAsEnvelope inner

/-- Function `Extract` of envelope.go: `errors.As` into a `*ErrorEnvelope`
variable, returning the envelope and `true` on success and `(nil,
false)` otherwise. -/
def Extract (err : GoError) : Option ErrorEnvelope × Bool :=
  match errorsAsEnvelope err with
  | some d => (some ⟨d⟩, true)
  | none => (none, false)

/-- Whether the `Unwrap` chain of an error reaches a `*ErrorEnvelope`,
i.e. the success condition of `errors.As` for that target type. -/
def envelopeInChain : GoError → Bool
  | .sentinel _ => false
  | .envelope _ => true
  | .httpError _ _ _ _ _ none _ => false
  | .httpError _ _ _ _ _ (some cause) _ => envelopeInChain cause
  | .wrapped _ inner => envelopeInChain inner

end ValidationErrors

namespace HttpError

/-- Struct `HTTPError` of http_error.go.  The serialised fields keep their Go
names; `cause` and `status` are the internal-only fields. -/
structure HTTPError where
  Code : String
  Message : String
  RequestID : String
  Recoverable : Bool
  RetryAfter : Int
  cause : Option GoError
  status : Int

/-- View of a `*HTTPError` as a Go error value for chain inspection. -/
def HTTPError.toGoError (e : HTTPError) : GoError :=
  .httpError e.Code e.Message e.RequestID e.Recoverable e.RetryAfter e.cause e.status

/-- Constructor `NewHTTPError` of http_error.go: the remaining fields take their Go
zero values (`false`, `0`, nil). -/
def NewHTTPError (requestID code message : String) (status : Int) : HTTPError :=
  { Code := code, Message := message, RequestID := requestID,
    Recoverable := false, RetryAfter := 0, cause := none, status := status }

/-- Method `WithRetry` of http_error.go: set `RetryAfter` and derive
`Recoverable` from `retryAfterSeconds > 0`. -/
def HTTPError.WithRetry (e : HTTPError) (retryAfterSeconds : Int) : HTTPError :=
  { e with RetryAfter := retryAfterSeconds,
           Recoverable := if 0 < retryAfterSeconds then true else false }

/-- Method `WithCause` of http_error.go: attach the cause when it is non-nil,
leaving every other field unchanged. -/
def HTTPError.WithCause (e : HTTPError) (cause : Option GoError) : HTTPError :=
  match cause with
  | some c => { e with cause := some c }
  | none => e

/-- Method `Status` of http_error.go: the explicit override when set, else a
default derived from the machine code. -/
def HTTPError.Status (e : HTTPError) : Int :=
  if e.status ≠ 0 then e.status
  else if e.Code = Errors.BadRequest ∨ e.Code = Errors.ValidationFailed then 400
  else if e.Code = Errors.Unauthorized then 401
  else if e.Code = Errors.Forbidden then 403
  else if e.Code = Errors.NotFound then 404
  else if e.Code = Errors.Conflict then 409
  else if e.Code = Errors.TooManyRequests then 429
  else if e.Code = Errors.BadGateway then 502
  else 500

/-- Method `Response` of http_error.go: status, headers (a `Retry-After` header
with `strconv.Itoa(e.RetryAfter)` exactly when `e.RetryAfter > 0`) and
the error itself. -/
def HTTPError.Response (e : HTTPError) : Int × List (String × String) × HTTPError :=
  (e.Status,
   (if 0 < e.RetryAfter then [("Retry-After", toString e.RetryAfter)] else []),
   e)

/-- Constructor `Internal` of http_error.go. -/
def Internal (requestID msg : String) : HTTPError :=
  NewHTTPError requestID Errors.Internal
    (if msg = "" then "internal server error" else msg) 500

/-- Constructor `BadGateway` of http_error.go. -/
def BadGateway (requestID msg : String) : HTTPError :=
  NewHTTPError requestID Errors.BadGateway
    (if msg = "" then Errors.HumanMessage Errors.BadGateway [] else msg) 502

/-- Constructor `Unauthorized` of http_error.go. -/
def Unauthorized (requestID msg : String) : HTTPError :=
  NewHTTPError requestID Errors.Unauthorized
    (if msg = "" then "unauthorized" else msg) 401

/-- Constructor `Forbidden` of http_error.go. -/
def Forbidden (requestID msg : String) : HTTPError :=
  NewHTTPError requestID Errors.Forbidden
    (if msg = "" then "forbidden" else msg) 403

/-- Constructor `NotFound` of http_error.go. -/
def NotFound (requestID msg : String) : HTTPError :=
  NewHTTPError requestID Errors.NotFound
    (if msg = "" then "not found" else msg) 404

/-- Constructor `Conflict` of http_error.go. -/
def Conflict (requestID msg : String) : HTTPError :=
  NewHTTPError requestID Errors.Conflict
    (if msg = "" then "conflict" else msg) 409

/-- Constructor `TooManyRequests` of http_error.go: defaults to recommending retry
after 60 seconds. -/
def TooManyRequests (requestID msg : String) : HTTPError :=
  (NewHTTPError requestID Errors.TooManyRequests
    (if msg = "" then "too many requests" else msg) 429).WithRetry 60

/-- Constructor `ServiceUnavailable` of http_error.go: note that the source
constructs with the machine code `errC.Internal`, not
`errC.ServiceUnavailable`, and defaults to retry after 30 seconds. -/
def ServiceUnavailable (requestID msg : String) : HTTPError :=
  (NewHTTPError requestID Errors.Internal
    (if msg = "" then "service temporarily unavailable" else msg) 503).WithRetry 30

/-- Constructor `BadRequest` of http_error.go. -/
def BadRequest (requestID msg : String) : HTTPError :=
  NewHTTPError requestID Errors.BadRequest
    (if msg = "" then "bad request" else msg) 400

/-- From the claim\x27s words: an `HTTPError` is recoverable exactly
when its retry-after hint is positive. -/
def retryInvariant (e : HTTPError) : Prop :=
  e.Recoverable = decide (0 < e.RetryAfter)

/-- Function `GetLocale` of the locale-aware http_error.go revision: the first
locale if provided and non-empty, otherwise `"en"`.  Only element 0 of
the variadic list is ever inspected. -/
def GetLocale (locale : List String) : String :=
  match locale with
  | l0 :: _ => if l0 ≠ "" then l0 else "en"
  | [] => "en"

end HttpError

namespace Types

/-- Dynamic Go values that can populate a flexible attribute of type
`map[string]any` or appear in a parsed JSON document: nested null,
strings, integers, a live channel (the canonical value `encoding/json`
cannot marshal), arrays and string-keyed maps (`none` is a nil map). -/
inductive GoVal where
  | vNull
  | vStr (s : String)
  | vInt (n : Int)
  | vChan
  | vArr (xs : List GoVal)
  | vMapSA (m : Option (List (String × GoVal)))

mutual

/-- Whether `encoding/json.Marshal` succeeds on a dynamic value: it
fails exactly when a channel occurs somewhere inside. -/
def GoVal.marshallable : GoVal → Bool
  | .vNull => true
  | .vStr _ => true
  | .vInt _ => true
  | .vChan => false
  | .vArr xs => marshallableList xs
  | .vMapSA none => true
  | .vMapSA (some m) => marshallableEntries m

/-- All elements of an array are marshallable. -/
def marshallableList : List GoVal → Bool
  | [] => true
  | v :: rest => v.marshallable && marshallableList rest

/-- All values of a map are marshallable. -/
def marshallableEntries : List (String × GoVal) → Bool
  | [] => true
  | (_, v) :: rest => v.marshallable && marshallableEntries rest

end

/-- The Go types a `JSONB[T]` box is instantiated at in this
development: `int`, `string`, the two whitelisted shapes
`map[string]string` and `[]map[string]string`, and `map[string]any`. -/
inductive GoTy where
  | tInt
  | tStr
  | tMapSS
  | tSliceMapSS
  | tMapSA
deriving DecidableEq

/-- Interpretation of each Go type.  Nil-able kinds (maps, slices) are
wrapped in `Option`: `none` is the nil value. -/
def GoTy.interp : GoTy → Type
  | .tInt => Int
  | .tStr => String
  | .tMapSS => Option (List (String × String))
  | .tSliceMapSS => Option (List (Option (List (String × String))))
  | .tMapSA => Option (List (String × GoVal))

/-- The Go zero value of each type. -/
def GoTy.zero : (t : GoTy) → t.interp
  | .tInt => (0 : Int)
  | .tStr => ""
  | .tMapSS => none
  | .tSliceMapSS => none
  | .tMapSA => none

/-- Struct `JSONB[T]` of jsonb.go: a box owning one value of type `T`. -/
structure JSONB (t : GoTy) where
  Data : t.interp

/-- Whether `encoding/json.Marshal` succeeds on a value of the given
type: always for ints, strings and string-to-string shapes, and for
`map[string]any` exactly when every entry is marshallable. -/
def marshallableAt : (t : GoTy) → t.interp → Bool
  | .tInt, _ => true
  | .tStr, _ => true
  | .tMapSS, _ => true
  | .tSliceMapSS, _ => true
  | .tMapSA, none => true
  | .tMapSA, some m => marshallableEntries m

/-- The error returned by `encoding/json.Marshal`: `none` on success,
an unsupported-type error otherwise. -/
def jsonMarshalError (t : GoTy) (v : t.interp) : Option String :=
  if marshallableAt t v then none else some "json: unsupported type"

/-- Method `Validate` of jsonb.go: the type switch whitelists a
`map[string]string` and a `[]map[string]string` of length zero (Go
`len` of a nil map or slice is 0); every other value is checked by
marshalling it. -/
def JSONB.Validate {t : GoTy} (j : JSONB t) : Option String :=
  match t, j with
  | .tMapSS, ⟨m⟩ =>
      if (m.getD []).length = 0 then none else jsonMarshalError .tMapSS m
  | .tSliceMapSS, ⟨s⟩ =>
      if (s.getD []).length = 0 then none else jsonMarshalError .tSliceMapSS s
  | .tInt, ⟨v⟩ => jsonMarshalError .tInt v
  | .tStr, ⟨v⟩ => jsonMarshalError .tStr v
  | .tMapSA, ⟨v⟩ => jsonMarshalError .tMapSA v

/-- A JSON document on the wire: the literal `null` or a parsed value. -/
inductive JSONDoc where
  | null
  | doc (v : GoVal)

/-- Behaviour of `encoding/json.Unmarshal` for the JSON `null` document into an
existing value: a map, slice, pointer or interface is set to nil; any
other Go type is left unchanged and no error is produced. -/
def nullInto : (t : GoTy) → t.interp → t.interp
  | .tInt, old => old
  | .tStr, old => old
  | .tMapSS, _ => none
  | .tSliceMapSS, _ => none
  | .tMapSA, _ => none

/-- Decode the entries of a JSON object into `map[string]string`
entries; every value must be a string. -/
def decodeSSEntries : List (String × GoVal) → Except String (List (String × String))
  | [] => .ok []
  | (k, .vStr s) :: rest => (decodeSSEntries rest).map (fun r => (k, s) :: r)
  | (_, _) :: _ => .error "json: cannot unmarshal value into Go value of type string"

/-- Decode a JSON value into a `map[string]string` (nested null gives a
nil map). -/
def decodeMapSS : GoVal → Except String (Option (List (String × String)))
  | .vNull => .ok none
  | .vMapSA none => .ok (some [])
  | .vMapSA (some m) => (decodeSSEntries m).map some
  | _ => .error "json: cannot unmarshal value into Go value of type map[string]string"

/-- Decode the elements of a JSON array into `map[string]string`
values. -/
def decodeSliceElems : List GoVal → Except String (List (Option (List (String × String))))
  | [] => .ok []
  | v :: rest => do
      let h ← decodeMapSS v
      let r ← decodeSliceElems rest
      .ok (h :: r)

/-- Model of `encoding/json.Unmarshal` into a value of type `t`.  The
null document follows Go\x27s documented null behaviour (`nullInto`);
non-null documents decode by shape.  Go\x27s merge semantics for
decoding an object into an already non-nil map is not modelled: no
claim concerns that path. -/
def jsonUnmarshalInto : (t : GoTy) → JSONDoc → t.interp → Except String (t.interp)
  | t, .null, old => .ok (nullInto t old)
  | .tInt, .doc (.vInt n), _ => .ok n
  | .tInt, .doc _, _ => .error "json: cannot unmarshal value into Go value of type int"
  | .tStr, .doc (.vStr s), _ => .ok s
  | .tStr, .doc _, _ => .error "json: cannot unmarshal value into Go value of type string"
  | .tMapSS, .doc v, _ => decodeMapSS v
  | .tSliceMapSS, .doc (.vArr xs), _ => (decodeSliceElems xs).map some
  | .tSliceMapSS, .doc _, _ => .error "json: cannot unmarshal value into Go value of type []map[string]string"
  | .tMapSA, .doc (.vMapSA m), _ => .ok m
  | .tMapSA, .doc _, _ => .error "json: cannot unmarshal value into Go value of type map[string]any"

/-- A `database/sql` source value handed to `Scan`: `[]byte` payloads
arrive as parsed JSON documents; any other non-nil dynamic type is
represented by its printed type name. -/
inductive ScanSrc where
  | bytes (d : JSONDoc)
  | other (typeName : String)

/-- Method `Scan` of jsonb.go: nil resets `Data` to the zero value, `[]byte`
unmarshals into `Data`, anything else is an unsupported-type error. -/
def JSONB.Scan {t : GoTy} (j : JSONB t) (src : Option ScanSrc) : Except String (JSONB t) :=
  match src with
  | none => .ok ⟨t.zero⟩
  | some (.bytes d) => (jsonUnmarshalInto t d j.Data).map (fun v => ⟨v⟩)
  | some (.other name) => .error ("JSONB.Scan: Unsupported type " ++ name)

/-- Method `UnmarshalJSON` of jsonb.go: delegate to `json.Unmarshal` on the
owned value. -/
def JSONB.UnmarshalJSON {t : GoTy} (j : JSONB t) (b : JSONDoc) : Except String (JSONB t) :=
  (jsonUnmarshalInto t b j.Data).map (fun v => ⟨v⟩)

/-- From the claim\x27s words: the two whitelisted shapes, a
`map[string]string` or `[]map[string]string` of length zero (nil
included). -/
def whitelistedEmptyShape : (t : GoTy) → t.interp → Bool
  | .tMapSS, m => (m.getD []).length == 0
  | .tSliceMapSS, s => (s.getD []).length == 0
  | .tInt, _ => false
  | .tStr, _ => false
  | .tMapSA, _ => false

/-- From the claim\x27s words: the kinds whose zero value is nil, which
a JSON null resets. -/
def nilableKind : GoTy → Bool
  | .tInt => false
  | .tStr => false
  | .tMapSS => true
  | .tSliceMapSS => true
  | .tMapSA => true

end Types

/-! ## Theorems -/

namespace Errors

/-- The `sprintf` model never collapses a format with a literal
character to the empty output. -/
theorem sprintfAux_ne_nil (f : List Char) (args : List String)
    (h : hasLiteral f = true) : sprintfAux f args ≠ [] := by
  induction f, args using sprintfAux.induct with
  | case1 => simp [hasLiteral] at h
  | case2 a as => simp [hasLiteral] at h
  | case3 rest a as ih =>
    rw [hasLiteral] at h
    rw [sprintfAux]
    intro hc
    rcases List.append_eq_nil.mp hc with ⟨_, h2⟩
    exact ih h h2
  | case4 rest ih =>
    rw [sprintfAux]
    intro hc
    rcases List.append_eq_nil.mp hc with ⟨h1, _⟩
    exact absurd h1 (by decide)
  | case5 c rest args hne ih =>
    rw [sprintfAux]
    · simp
    · exact hne
    · exact ih

/-- Every English template has a literal character. -/
theorem messagesEN_good :
    messagesEN.all (fun p => hasLiteral p.2.data) = true := by decide

/-- Every Norwegian template has a literal character. -/
theorem messagesNB_good :
    messagesNB.all (fun p => hasLiteral p.2.data) = true := by decide

/-- A catalog lookup with a good fallback yields a good template. -/
theorem lookup_good (xs : List (String × String))
    (hxs : xs.all (fun p => hasLiteral p.2.data) = true) (code fb : String)
    (hfb : hasLiteral fb.data = true) :
    hasLiteral ((xs.lookup code).getD fb).data = true := by
  induction xs with
  | nil => simpa [List.lookup] using hfb
  | cons p rest ih =>
    rcases p with ⟨k, v⟩
    rw [List.all_cons] at hxs
    rcases Bool.and_eq_true_iff.mp hxs with ⟨h1, h2⟩
    rw [List.lookup]
    cases h : code == k
    · simpa using ih h2
    · simpa using h1

/-- The selected catalog is always one of the two shipped catalogs. -/
theorem selectedCatalog_cases (locale : String) :
    selectedCatalog locale = messagesEN ∨ selectedCatalog locale = messagesNB := by
  unfold selectedCatalog catalogs
  by_cases h1 : locale = "en"
  · left; subst h1; rfl
  · by_cases h2 : locale = "nb"
    · right; subst h2; rfl
    · left
      rw [List.lookup, List.lookup]
      have b1 : (locale == "en") = false := by simpa using h1
      have b2 : (locale == "nb") = false := by simpa using h2
      rw [b1, b2]
      rfl

/-- The resolved template always has a literal character. -/
theorem selectedMsg_good (locale code : String) :
    hasLiteral (selectedMsg locale code).data = true := by
  unfold selectedMsg
  have hfb : hasLiteral (((messagesEN.lookup Internal).getD "")).data = true := by decide
  rcases selectedCatalog_cases locale with h | h <;> rw [h]
  · exact lookup_good _ messagesEN_good code _ hfb
  · exact lookup_good _ messagesNB_good code _ hfb

/-- A string with a literal character is non-empty. -/
theorem good_ne_empty (s : String) (h : hasLiteral s.data = true) : s ≠ "" := by
  intro he
  subst he
  exact absurd h (by decide)

/-- Applying `sprintf` to a template with a literal character is non-empty. -/
theorem sprintf_ne_empty (f : String) (args : List String)
    (h : hasLiteral f.data = true) : sprintf f args ≠ "" := by
  intro he
  have hd : (sprintf f args).data = "".data := by rw [he]
  simp only [sprintf] at hd
  exact sprintfAux_ne_nil f.data args h hd

end Errors

/-- C1: for every locale (recognized or not, empty included), every
code and every argument list, `HumanMessageLocale` returns a non-empty
string (it never fails), and for a locale with no catalog the result
coincides with the `"en"` resolution. -/
theorem claim_C1_message_resolution_total (locale code : String) (args : List String) :
    Errors.HumanMessageLocale locale code args ≠ "" ∧
    (Errors.catalogs.lookup locale = none →
      Errors.HumanMessageLocale locale code args =
        Errors.HumanMessageLocale "en" code args) := by
  constructor
  · have hm := Errors.selectedMsg_good locale code
    unfold Errors.HumanMessageLocale
    by_cases h : 0 < args.length
    · simp only [h, if_true]
      exact Errors.sprintf_ne_empty _ _ hm
    · simp only [h, if_false]
      exact Errors.good_ne_empty _ hm
  · intro h
    unfold Errors.HumanMessageLocale Errors.selectedMsg Errors.selectedCatalog
    rw [h]
    rfl

/-- Witness for C1 at the unsupported locale `"fr"`. -/
theorem claim_C1_message_resolution_total_witness :
    Errors.catalogs.lookup "fr" = none ∧
    Errors.HumanMessageLocale "fr" "not_found" [] ≠ "" ∧
    Errors.HumanMessageLocale "fr" "not_found" [] =
      Errors.HumanMessageLocale "en" "not_found" [] := by
  refine ⟨by decide, (claim_C1_message_resolution_total "fr" "not_found" []).1,
    (claim_C1_message_resolution_total "fr" "not_found" []).2 (by decide)⟩

/-- C2 counterexample: `"nb"` has its own catalog, the code
`"no_such_code"` is absent from it, yet the resolved fallback is the
English internal-error text, not the Norwegian one. -/
theorem claim_C2_counterexample :
    Errors.HumanMessageLocale "nb" "no_such_code" [] ≠
      "Noe gikk galt hos oss. Prøv igjen." ∧
    Errors.HumanMessageLocale "nb" "no_such_code" [] =
      "Something went wrong on our side. Please try again." := by
  constructor
  · decide
  · decide

/-- C2 amended: for every locale that has its own catalog and every
code absent from that catalog, `HumanMessageLocale` falls back to the
English internal-error entry (`messagesEN[Internal]`), regardless of
the requested locale. -/
theorem claim_C2_fallback_is_english (locale code : String)
    (cat : List (String × String))
    (h1 : Errors.catalogs.lookup locale = some cat)
    (h2 : cat.lookup code = none) :
    Errors.HumanMessageLocale locale code [] =
      "Something went wrong on our side. Please try again." := by
  unfold Errors.HumanMessageLocale Errors.selectedMsg Errors.selectedCatalog
  rw [h1]
  simp only [Option.getD_some, List.length_nil]
  rw [h2]
  rfl

/-- Witness for C2 at locale `"nb"` and the absent code `"zzz"`. -/
theorem claim_C2_fallback_is_english_witness :
    Errors.catalogs.lookup "nb" = some Errors.messagesNB ∧
    Errors.messagesNB.lookup "zzz" = none ∧
    Errors.HumanMessageLocale "nb" "zzz" [] =
      "Something went wrong on our side. Please try again." := by
  refine ⟨by decide, by decide, claim_C2_fallback_is_english "nb" "zzz"
    Errors.messagesNB (by decide) (by decide)⟩

/-- C10: the bilingual helper returns the Norwegian field exactly for
the tag `"no"` and the English field for every other tag (including
`"en"`, `""` and `"nb"`), and it never fails. -/
theorem claim_C10_custom_message_locale (locale : String) (c : Errors.CustomMessage) :
    Errors.CustomHumanMessageLocale locale c =
      if locale = "no" then c.No else c.En := by
  unfold Errors.CustomHumanMessageLocale Errors.fieldByName
  by_cases h1 : locale = "en"
  · subst h1
    rfl
  · by_cases h2 : locale = "no"
    · subst h2
      rfl
    · have b1 : (locale == "en") = false := by simpa using h1
      have b2 : (locale == "no") = false := by simpa using h2
      simp [List.lookup, b1, b2, h2]

/-- C3: the constructor yields a non-nil zero-length details slice and
serializes as an empty array; a zero-initialized envelope has a nil
details slice and serializes as null; the two construction paths stay
observably distinct. -/
theorem claim_C3_envelope_details_serialization :
    ValidationErrors.New.Details = some [] ∧
    ValidationErrors.marshalEnvelope ValidationErrors.New = "\x7b\"details\":[]\x7d" ∧
    ValidationErrors.zeroEnvelope.Details = none ∧
    ValidationErrors.marshalEnvelope ValidationErrors.zeroEnvelope = "\x7b\"details\":null\x7d" ∧
    ValidationErrors.marshalEnvelope ValidationErrors.New ≠
      ValidationErrors.marshalEnvelope ValidationErrors.zeroEnvelope := by
  exact ⟨rfl, rfl, rfl, rfl, by decide⟩

namespace ValidationErrors

/-- Any error whose unwrap chain reaches an envelope matches the
validation sentinel under `errors.Is`. -/
theorem errorsIs_of_envelopeInChain (err : GoError)
    (h : envelopeInChain err = true) :
    errorsIs err ErrValidation = true := by
  induction err using envelopeInChain.induct with
  | case1 s => simp [envelopeInChain] at h
  | case2 d => rfl
  | case3 c m r rec ra st => simp [envelopeInChain] at h
  | case4 c m r rec ra cause st ih =>
    rw [envelopeInChain] at h
    rw [errorsIs]
    rw [ih h]
    simp [eqGoError]
  | case5 m inner ih =>
    rw [envelopeInChain] at h
    rw [errorsIs]
    rw [ih h]
    simp [eqGoError]

/-- Any error whose unwrap chain reaches an envelope yields one under
`errors.As`. -/
theorem errorsAsEnvelope_isSome_of_envelopeInChain (err : GoError)
    (h : envelopeInChain err = true) :
    (errorsAsEnvelope err).isSome = true := by
  induction err using envelopeInChain.induct with
  | case1 s => simp [envelopeInChain] at h
  | case2 d => rfl
  | case3 c m r rec ra st => simp [envelopeInChain] at h
  | case4 c m r rec ra cause st ih =>
    rw [envelopeInChain] at h
    rw [errorsAsEnvelope]
    exact ih h
  | case5 m inner ih =>
    rw [envelopeInChain] at h
    rw [errorsAsEnvelope]
    exact ih h

end ValidationErrors

/-- C4: every envelope matches the validation sentinel; sentinel
matching and typed extraction both succeed for an envelope wrapped at
any depth in a causal chain, in particular when attached as the cause
of an `HTTPError` via `WithCause`. -/
theorem claim_C4_envelope_identity_protocols
    (d : Option (List ValidationErrors.ValidationError)) (err : GoError)
    (e : HttpError.HTTPError) :
    ValidationErrors.errorsIs (.envelope d) ValidationErrors.ErrValidation = true ∧
    (ValidationErrors.envelopeInChain err = true →
      ValidationErrors.errorsIs err ValidationErrors.ErrValidation = true ∧
      (ValidationErrors.Extract err).2 = true) ∧
    ValidationErrors.errorsIs
      ((e.WithCause (some (.envelope d))).toGoError) ValidationErrors.ErrValidation = true ∧
    ValidationErrors.Extract ((e.WithCause (some (.envelope d))).toGoError) =
      (some ⟨d⟩, true) := by
  refine ⟨rfl, ?_, rfl, rfl⟩
  intro h
  refine ⟨ValidationErrors.errorsIs_of_envelopeInChain err h, ?_⟩
  have hs := ValidationErrors.errorsAsEnvelope_isSome_of_envelopeInChain err h
  unfold ValidationErrors.Extract
  cases he : ValidationErrors.errorsAsEnvelope err
  · rw [he] at hs
    simp at hs
  · rfl

/-- Witness for C4: an envelope wrapped twice inside context errors. -/
theorem claim_C4_envelope_identity_protocols_witness :
    ValidationErrors.envelopeInChain
      (GoError.wrapped "reading user" (GoError.wrapped "validating payload"
        (GoError.envelope (some [])))) = true ∧
    ValidationErrors.errorsIs
      (GoError.wrapped "reading user" (GoError.wrapped "validating payload"
        (GoError.envelope (some [])))) ValidationErrors.ErrValidation = true ∧
    (ValidationErrors.Extract
      (GoError.wrapped "reading user" (GoError.wrapped "validating payload"
        (GoError.envelope (some []))))).2 = true := by
  have h := (claim_C4_envelope_identity_protocols (some [])
    (GoError.wrapped "reading user" (GoError.wrapped "validating payload"
      (GoError.envelope (some []))))
    (HttpError.NotFound "31ac4e2a" "")).2.1 rfl
  exact ⟨rfl, h.1, h.2⟩

/-- C5: every constructor establishes the recoverable-iff-positive
retry invariant, `WithRetry` sets both fields (idempotently) and
re-establishes it, `WithCause` touches neither field, and the response
headers carry a `Retry-After` value exactly when the hint is
positive. -/
theorem claim_C5_retry_invariant_preserved (rid code msg : String) (st : Int)
    (e : HttpError.HTTPError) (n : Int) (c : Option GoError) :
    HttpError.retryInvariant (HttpError.NewHTTPError rid code msg st) ∧
    HttpError.retryInvariant (HttpError.Internal rid msg) ∧
    HttpError.retryInvariant (HttpError.BadGateway rid msg) ∧
    HttpError.retryInvariant (HttpError.Unauthorized rid msg) ∧
    HttpError.retryInvariant (HttpError.Forbidden rid msg) ∧
    HttpError.retryInvariant (HttpError.NotFound rid msg) ∧
    HttpError.retryInvariant (HttpError.Conflict rid msg) ∧
    HttpError.retryInvariant (HttpError.TooManyRequests rid msg) ∧
    HttpError.retryInvariant (HttpError.ServiceUnavailable rid msg) ∧
    HttpError.retryInvariant (HttpError.BadRequest rid msg) ∧
    (e.WithRetry n).RetryAfter = n ∧
    (e.WithRetry n).Recoverable = decide (0 < n) ∧
    HttpError.retryInvariant (e.WithRetry n) ∧
    (e.WithRetry n).WithRetry n = e.WithRetry n ∧
    (e.WithCause c).RetryAfter = e.RetryAfter ∧
    (e.WithCause c).Recoverable = e.Recoverable ∧
    e.Response.2.1.lookup "Retry-After" =
      (if 0 < e.RetryAfter then some (toString e.RetryAfter) else none) := by
  refine ⟨rfl, rfl, rfl, rfl, rfl, rfl, rfl, rfl, rfl, rfl, rfl, ?_, ?_, rfl,
    ?_, ?_, ?_⟩
  · by_cases h : (0 : Int) < n <;>
      simp [HttpError.HTTPError.WithRetry, h]
  · by_cases h : (0 : Int) < n <;>
      simp [HttpError.retryInvariant, HttpError.HTTPError.WithRetry, h]
  · cases c <;> rfl
  · cases c <;> rfl
  · by_cases h : (0 : Int) < e.RetryAfter <;>
      simp [HttpError.HTTPError.Response, h, List.lookup]

/-- C6 evaluation at the failing input: `ServiceUnavailable` constructs
with the internal-error machine code instead of the dedicated
service-unavailable code (which the errors package defines and the
package\x27s own test expects), while the retry defaults (30s, and 60s
for `TooManyRequests`) hold. -/
theorem claim_C6_service_unavailable_code :
    (HttpError.ServiceUnavailable "req-1" "down").Code = "internal_error" ∧
    Errors.ServiceUnavailable = "service_unavailable" ∧
    (HttpError.ServiceUnavailable "req-1" "down").Code ≠ Errors.ServiceUnavailable ∧
    (HttpError.ServiceUnavailable "req-1" "down").RetryAfter = 30 ∧
    (HttpError.ServiceUnavailable "req-1" "down").Recoverable = true ∧
    (HttpError.TooManyRequests "req-1" "slow").Code = "too_many_requests" ∧
    (HttpError.TooManyRequests "req-1" "slow").RetryAfter = 60 ∧
    (HttpError.TooManyRequests "req-1" "slow").Recoverable = true := by
  exact ⟨rfl, rfl, by decide, rfl, rfl, rfl, rfl, rfl⟩

/-- C7 counterexample: for the tag list `["", "nb"]` the selected
locale is `"en"`, not `"nb"`: later tags are never consulted. -/
theorem claim_C7_counterexample :
    HttpError.GetLocale ["", "nb"] = "en" ∧
    HttpError.GetLocale ["", "nb"] ≠ "nb" := by
  exact ⟨rfl, by decide⟩

/-- C7 amended: only the first tag is consulted: it is authoritative
when non-empty, and the locale defaults to `"en"` when the list is
empty or its first tag is empty. -/
theorem claim_C7_first_tag_wins (t : String) (rest : List String) :
    (t ≠ "" → HttpError.GetLocale (t :: rest) = t) ∧
    HttpError.GetLocale ("" :: rest) = "en" ∧
    HttpError.GetLocale [] = "en" := by
  refine ⟨?_, rfl, rfl⟩
  intro h
  simp [HttpError.GetLocale, h]

/-- Witness for C7 at the list `["nb"]`. -/
theorem claim_C7_first_tag_wins_witness :
    "nb" ≠ "" ∧ HttpError.GetLocale ["nb"] = "nb" := by
  exact ⟨by decide, (claim_C7_first_tag_wins "nb" []).1 (by decide)⟩

/-- C8: `Validate` accepts the two whitelisted empty shapes
unconditionally, and on every other value returns exactly the
`json.Marshal` error (none on success); a `map[string]any` holding a
channel is rejected with the unsupported-type error. -/
theorem claim_C8_jsonb_validate (t : Types.GoTy) (j : Types.JSONB t) :
    (Types.whitelistedEmptyShape t j.Data = true → j.Validate = none) ∧
    (Types.whitelistedEmptyShape t j.Data = false →
      j.Validate = Types.jsonMarshalError t j.Data) ∧
    Types.JSONB.Validate (t := Types.GoTy.tMapSA) ⟨some [("ch", Types.GoVal.vChan)]⟩ =
      some "json: unsupported type" := by
  refine ⟨?_, ?_, rfl⟩
  · cases t <;> obtain ⟨v⟩ := j <;> intro h
    · exact Bool.noConfusion h
    · exact Bool.noConfusion h
    · simp only [Types.whitelistedEmptyShape, beq_iff_eq] at h
      simp [Types.JSONB.Validate, h]
    · simp only [Types.whitelistedEmptyShape, beq_iff_eq] at h
      simp [Types.JSONB.Validate, h]
    · exact Bool.noConfusion h
  · cases t <;> obtain ⟨v⟩ := j <;> intro h
    · rfl
    · rfl
    · simp only [Types.whitelistedEmptyShape] at h
      simp at h
      simp [Types.JSONB.Validate, h]
    · simp only [Types.whitelistedEmptyShape] at h
      simp at h
      simp [Types.JSONB.Validate, h]
    · rfl

/-- Witness for C8: the nil `map[string]string` is whitelisted and
valid; a channel-holding `map[string]any` is not whitelisted and
validates to exactly the marshalling error. -/
theorem claim_C8_jsonb_validate_witness :
    Types.whitelistedEmptyShape Types.GoTy.tMapSS
      (Types.JSONB.mk (t := Types.GoTy.tMapSS) none).Data = true ∧
    Types.JSONB.Validate (t := Types.GoTy.tMapSS) ⟨none⟩ = none ∧
    Types.whitelistedEmptyShape Types.GoTy.tMapSA
      (Types.JSONB.mk (t := Types.GoTy.tMapSA)
        (some [("ch", Types.GoVal.vChan)])).Data = false ∧
    Types.JSONB.Validate (t := Types.GoTy.tMapSA) ⟨some [("ch", Types.GoVal.vChan)]⟩ =
      Types.jsonMarshalError Types.GoTy.tMapSA (some [("ch", Types.GoVal.vChan)]) := by
  refine ⟨rfl, (claim_C8_jsonb_validate Types.GoTy.tMapSS ⟨none⟩).1 rfl, rfl,
    (claim_C8_jsonb_validate Types.GoTy.tMapSA
      ⟨some [("ch", Types.GoVal.vChan)]⟩).2.1 rfl⟩

/-- C9 counterexample: JSON-decoding the literal null into a
`JSONB[int]` holding 5 leaves the 5 in place (Go null semantics), so
the box does not hold the zero value afterwards. -/
theorem claim_C9_counterexample :
    Types.JSONB.UnmarshalJSON (t := Types.GoTy.tInt) ⟨(5 : Int)⟩ Types.JSONDoc.null =
      Except.ok ⟨(5 : Int)⟩ ∧
    Types.GoTy.zero Types.GoTy.tInt = (0 : Int) ∧ (5 : Int) ≠ (0 : Int) := by
  exact ⟨rfl, rfl, by decide⟩

/-- C9 amended: `Scan(nil)` always resets the owned value to the zero
value and returns no error; `UnmarshalJSON(null)` never errors and
resets to the zero value exactly for the nil-able kinds (maps, slices),
leaving the owned value unchanged for the other kinds. -/
theorem claim_C9_null_decode_resets (t : Types.GoTy) (j : Types.JSONB t) :
    j.Scan none = Except.ok ⟨Types.GoTy.zero t⟩ ∧
    (Types.nilableKind t = true →
      j.UnmarshalJSON Types.JSONDoc.null = Except.ok ⟨Types.GoTy.zero t⟩) ∧
    (Types.nilableKind t = false →
      j.UnmarshalJSON Types.JSONDoc.null = Except.ok j) := by
  refine ⟨rfl, ?_, ?_⟩
  · cases t <;> obtain ⟨v⟩ := j <;> intro h
    · exact Bool.noConfusion h
    · exact Bool.noConfusion h
    · rfl
    · rfl
    · rfl
  · cases t <;> obtain ⟨v⟩ := j <;> intro h
    · rfl
    · rfl
    · exact Bool.noConfusion h
    · exact Bool.noConfusion h
    · exact Bool.noConfusion h

/-- Witness for C9 at a populated `map[string]string` box. -/
theorem claim_C9_null_decode_resets_witness :
    Types.nilableKind Types.GoTy.tMapSS = true ∧
    Types.JSONB.Scan (t := Types.GoTy.tMapSS) ⟨some [("a", "b")]⟩ none =
      Except.ok ⟨Types.GoTy.zero Types.GoTy.tMapSS⟩ ∧
    Types.JSONB.UnmarshalJSON (t := Types.GoTy.tMapSS) ⟨some [("a", "b")]⟩
      Types.JSONDoc.null = Except.ok ⟨Types.GoTy.zero Types.GoTy.tMapSS⟩ := by
  refine ⟨rfl, (claim_C9_null_decode_resets Types.GoTy.tMapSS ⟨some [("a", "b")]⟩).1,
    (claim_C9_null_decode_resets Types.GoTy.tMapSS ⟨some [("a", "b")]⟩).2.1 rfl⟩

end DsCommonModels
